import Mathlib

/-!
Verification development for the REAL GAIN reference MCP server
(src/server.ts of real-gain/real-gain-reference).

The file embeds, as executable Lean definitions:
  - the per-transport event log and stream attachment model
    (the SDK pieces InMemoryEventStore / StreamableHTTPServerTransport are
    not part of this repository; they are modelled from the specification),
  - the session registry and the three HTTP verb handlers of server.ts
    (app.post, app.get, app.delete on the /mcp path),
  - the SIGINT shutdown loop,
  - the three tools (co2measures, realEstateOrganizations, process_file).

Theorems about the spec claims follow the definitions.
-/

/-! ### Event log (spec sections 3 and 4.1) -/

/-- An entry of a per-transport event log: a sequence id and the serialized
outbound message payload. -/
structure LogEntry where
  sequenceId : Nat
  payload : String
deriving DecidableEq, Repr

/-- Modelled from the spec: the SDK class InMemoryEventStore instantiated at
server.ts line 517 is not under src.  Spec sections 3 and 4.1 define it as an
append-only log of entries whose sequence ids are strictly increasing,
starting at 1, never mutated or reordered after append. -/
structure EventLog where
  entries : List LogEntry
deriving DecidableEq, Repr

def EventLog.empty : EventLog := ⟨[]⟩

/-- Append a payload; the new entry receives the next sequence id. -/
def EventLog.append (log : EventLog) (p : String) : EventLog :=
  ⟨log.entries ++ [⟨log.entries.length + 1, p⟩]⟩

/-- Modelled from the spec (section 4.1): replayAfter(n) yields the entries
with sequence id greater than n, in log order. -/
def EventLog.replayAfter (log : EventLog) (n : Nat) : List LogEntry :=
  log.entries.filter (fun e => n < e.sequenceId)

/-- Append a whole list of payloads in order. -/
def EventLog.appendAll (log : EventLog) (ps : List String) : EventLog :=
  ps.foldl EventLog.append log

/-- The sequence ids of a log built by append are 1, 2, ..., length. -/
def EventLog.wellFormed (log : EventLog) : Prop :=
  log.entries.map LogEntry.sequenceId
    = (List.range log.entries.length).map (fun k => k + 1)

instance (log : EventLog) : Decidable log.wellFormed :=
  inferInstanceAs (Decidable (_ = _))

/-- The entries created by appending the payloads ps to a log that already
holds start entries: ids start at start + 1. -/
def mkEntries (start : Nat) : List String → List LogEntry
  | [] => []
  | p :: rest => ⟨start + 1, p⟩ :: mkEntries (start + 1) rest

/-! ### Stream attachment model (spec sections 3 and 4.3)

Modelled from the spec: the stream handling of the SDK class
StreamableHTTPServerTransport (server.ts line 518) is not under src.  Spec
section 4.3 defines attachStream: an optional last-seen sequence id triggers
replay of all later entries over the new connection, then the connection
becomes the live one; a previously live connection is detached, not closed;
newly appended entries are forwarded to the live connection only. -/

/-- Identifier of an attached GET stream connection. -/
abbrev ConnId := Nat

/-- State of one transport's stream machinery: the event log, the at most one
live connection, and the messages each connection has received so far. -/
structure StreamState where
  log : EventLog
  live : Option ConnId
  recv : ConnId → List LogEntry

/-- Operations on the stream machinery: attach a (re)connecting GET stream
with an optional last-event-id header, or append an outbound message. -/
inductive StreamOp where
  | attach (c : ConnId) (lastEventId : Option Nat)
  | append (p : String)

/-- One step of the stream machinery, modelled from spec section 4.3:
attach replays the log entries after the given id (nothing when the header is
absent) to the new connection and makes it live, superseding a previous live
connection without touching the log; append writes the entry to the log and
forwards it to the live connection only. -/
def StreamState.step (s : StreamState) : StreamOp → StreamState
  | .attach c lastEventId =>
      let replayed := match lastEventId with
        | some n => s.log.replayAfter n
        | none => []
      { s with
          live := some c
          recv := Function.update s.recv c (s.recv c ++ replayed) }
  | .append p =>
      let entry : LogEntry := ⟨s.log.entries.length + 1, p⟩
      { log := s.log.append p
        live := s.live
        recv := match s.live with
          | some c => Function.update s.recv c (s.recv c ++ [entry])
          | none => s.recv }

/-- Run a list of stream operations from a state. -/
def StreamState.run (s : StreamState) (ops : List StreamOp) : StreamState :=
  ops.foldl StreamState.step s

/-! ### Session registry and HTTP verb router (server.ts lines 497 to 618) -/

/-- Session ids: the server generates them with randomUUID (server.ts line
519), which is node stdlib, not repository code.  The spec (section 4.2)
requires the generator to yield tokens globally unique for the process
lifetime; it is modelled as an injective fresh-token source driven by a
counter. -/
def mkSessionId (n : Nat) : String :=
  String.mk (List.replicate (n + 1) 's')

/-- The server state the /mcp route handlers touch: the transports map keyed
by session id (server.ts line 497) and the state of the fresh-id source. -/
structure ServerState where
  sessions : List String
  nextFresh : Nat
deriving DecidableEq, Repr

/-- JS truthiness of the mcp-session-id header value: undefined and the empty
string are both falsy in the guards of server.ts. -/
def headerPresent : Option String → Bool
  | none => false
  | some s => s ≠ ""

/-- Body of a response the route handlers write themselves:
res.json with a jsonrpc error object carrying code and message, or res.send
with a plain text string. -/
inductive Body where
  | jsonError (code : Int) (message : String)
  | plainText (message : String)
deriving DecidableEq, Repr

/-- Whether a body is a structured error object of the form code-and-message
(the shape the spec calls a structured error body). -/
def Body.isStructuredError : Body → Bool
  | .jsonError _ _ => true
  | .plainText _ => false

/-- Outcome of one /mcp route handler invocation:
a response the handler wrote itself, a request successfully delegated to the
transport of the named session, no response because headers were already
committed when an error was caught, or a fault that escaped the handler
uncaught. -/
inductive HandlerResult where
  | response (status : Nat) (body : Body)
  | streamed (sid : String)
  | noResponse
  | uncaught (message : String)
deriving DecidableEq, Repr

/-- Whether the handler wrote any response at all. -/
def HandlerResult.sendsResponse : HandlerResult → Bool
  | .response _ _ => true
  | _ => false

/-- An internal fault raised while the SDK transport handles the request,
together with whether response headers were already committed when the fault
reaches a catch block (res.headersSent). -/
structure Fault where
  message : String
  headersSent : Bool
deriving DecidableEq, Repr

/-- Keys for which the JS property read transports[sessionId] (server.ts
lines 510, 582 and 602) is truthy through the prototype chain although no
session was registered: the transports map is a plain object literal, so its
prototype is Object.prototype and these property names are found there, all
bound to truthy values (functions, or the prototype object itself). -/
def protoKeys : List String :=
  ["constructor", "hasOwnProperty", "isPrototypeOf", "propertyIsEnumerable",
   "toLocaleString", "toString", "valueOf", "__proto__",
   "__defineGetter__", "__defineSetter__", "__lookupGetter__", "__lookupSetter__"]

/-- Truthiness of the JS read transports[sessionId]: an own property when the
id is registered, else an inherited Object.prototype property. -/
def lookupTruthy (st : ServerState) (sid : String) : Bool :=
  decide (sid ∈ st.sessions) || decide (sid ∈ protoKeys)

/-- Embedding of app.post on /mcp (server.ts lines 500 to 577), including its
try/catch.  A present session id found in the transports map reuses that
transport; an absent id with an initialization body creates a transport whose
onsessioninitialized callback registers a fresh id in the map; anything else
is rejected with status 400 and the jsonrpc error object.  The reuse guard is
the JS truthiness of transports[sessionId], so an unregistered id naming an
Object.prototype property passes it and the subsequent handleRequest call
throws, which the catch turns into the generic 500.  A fault thrown by
transport handling is caught: status 500 with a generic jsonrpc error body
when headers are not yet sent, otherwise nothing is written. -/
def postRoute (st : ServerState) (header : Option String) (isInit : Bool)
    (fault : Option Fault) : HandlerResult × ServerState :=
  let sid := header.getD ""
  if headerPresent header && lookupTruthy st sid then
    if decide (sid ∈ st.sessions) then
      match fault with
      | none => (.streamed sid, st)
      | some f =>
          if f.headersSent then (.noResponse, st)
          else (.response 500 (.jsonError (-32603) "Internal server error"), st)
    else
      -- prototype-chain hit: transports[sid] is an inherited object with no
      -- handleRequest, the call throws a TypeError before any output is
      -- written, and the catch answers with the generic 500
      (.response 500 (.jsonError (-32603) "Internal server error"), st)
  else if !headerPresent header && isInit then
    let newSid := mkSessionId st.nextFresh
    let st' : ServerState := ⟨st.sessions ++ [newSid], st.nextFresh + 1⟩
    match fault with
    | none => (.streamed newSid, st')
    | some f =>
        if f.headersSent then (.noResponse, st')
        else (.response 500 (.jsonError (-32603) "Internal server error"), st')
  else
    (.response 400
      (.jsonError (-32000) "Bad Request: No valid session ID provided"), st)

/-- Embedding of app.get on /mcp (server.ts lines 580 to 597).  A missing or
unknown session id is rejected with status 400 and a plain text body - except
that the guard tests JS truthiness of transports[sessionId], so an
unregistered id naming an Object.prototype property passes it; the handler
body has no try/catch, so the fault thrown by transport handling (or by
calling handleRequest on the inherited object) escapes the handler
uncaught. -/
def getRoute (st : ServerState) (header : Option String)
    (fault : Option Fault) : HandlerResult × ServerState :=
  let sid := header.getD ""
  if !headerPresent header || !lookupTruthy st sid then
    (.response 400 (.plainText "Invalid or missing session ID"), st)
  else if decide (sid ∈ st.sessions) then
    match fault with
    | none => (.streamed sid, st)
    | some f => (.uncaught f.message, st)
  else
    -- prototype-chain hit: the TypeError from calling handleRequest on the
    -- inherited object escapes the handler, which has no catch
    (.uncaught "TypeError: transport.handleRequest is not a function", st)

/-- Embedding of app.delete on /mcp (server.ts lines 600 to 618), including
its try/catch.  A missing or unknown session id is rejected with status 400
and a plain text body (again through the JS truthiness guard, which an
Object.prototype property name passes).  On success the SDK terminates the
session (modelled
from the spec, section 4.3: terminate signals the registry to forget the
session; the onclose hook of server.ts lines 531 to 537 deletes the map
entry).  A fault is caught: status 500 with a generic plain text body when
headers are not yet sent, otherwise nothing is written. -/
def deleteRoute (st : ServerState) (header : Option String)
    (fault : Option Fault) : HandlerResult × ServerState :=
  let sid := header.getD ""
  if !headerPresent header || !lookupTruthy st sid then
    (.response 400 (.plainText "Invalid or missing session ID"), st)
  else if decide (sid ∈ st.sessions) then
    match fault with
    | none => (.streamed sid, ⟨st.sessions.erase sid, st.nextFresh⟩)
    | some f =>
        if f.headersSent then (.noResponse, st)
        else (.response 500 (.plainText "Error processing session termination"), st)
  else
    -- prototype-chain hit: the TypeError is caught and, with no output sent
    -- yet, answered with the 500 plain text body
    (.response 500 (.plainText "Error processing session termination"), st)

/-- Embedding of the transport onclose hook (server.ts lines 531 to 537): if
the closed transport's session id is in the transports map, delete it. -/
def oncloseCleanup (st : ServerState) (sid : String) : ServerState :=
  if sid ∈ st.sessions then ⟨st.sessions.erase sid, st.nextFresh⟩ else st

/-- A session id that has transitioned to Closed: it is no longer in the
transports map, and it was generated earlier by the fresh-id source. -/
def closedSession (st : ServerState) (sid : String) : Prop :=
  sid ∉ st.sessions ∧ ∃ k, k < st.nextFresh ∧ sid = mkSessionId k

/-! ### SIGINT shutdown (server.ts lines 627 to 642) -/

/-- Embedding of the for-in loop of the SIGINT handler: each transport is
closed inside its own try/catch; on success the map entry is deleted, on a
close failure the catch only logs and the loop continues with the remaining
sessions.  closeFails says which transports throw from close(). -/
def shutdownLoop (closeFails : String → Bool) : List String → List String
  | [] => []
  | sid :: rest =>
      if closeFails sid then sid :: shutdownLoop closeFails rest
      else shutdownLoop closeFails rest

/-- Embedding of the whole SIGINT handler: run the close loop over the
transports map, then process.exit(0); the returned number is the exit
status. -/
def sigintShutdown (st : ServerState) (closeFails : String → Bool) :
    ServerState × Nat :=
  (⟨shutdownLoop closeFails st.sessions, st.nextFresh⟩, 0)

/-! ### Tool results (server.ts lines 60 to 477) -/

/-- A content block of a tool result: the type tag (always the string text in
this server) and the text. -/
structure ContentBlock where
  type : String
  text : String
deriving DecidableEq, Repr

/-- One series of the co2measures chart: the name the code sets and the
numeric values. -/
structure ChartSeries where
  name : String
  data : List Rat
deriving DecidableEq, Repr

/-- The chart configuration built by the co2measures handler (server.ts lines
164 to 250).  The numeric series values and timestamps are produced by
calculateEmissions from the current clock (new Date) and floating point
Math.exp, so they enter this model as abstract value lists; the structural
fields the code fixes (type line, height 200, the two series names) are kept
concrete. -/
structure ChartConfig where
  chartType : String
  height : Nat
  series : List ChartSeries
  timestamps : List Rat
deriving DecidableEq, Repr

/-- A table column specification of the realEstateOrganizations table
resource (server.ts lines 333 to 370). -/
structure TableColumn where
  name : String
  field : String
  width : String
deriving DecidableEq, Repr

/-- One organization record of the realEstateOrganizations tool (server.ts
lines 272 to 328).  The source field named _type is embedded as typeTag. -/
structure Organization where
  name : String
  address : String
  description : String
  email : String
  website : String
  legalForm : String
  registrationNumber : String
  court : String
  taxNumber : String
  lat : Rat
  lon : Rat
  poiType : String
  typeTag : String
deriving DecidableEq, Repr

/-- An auxiliary resource as placed into structuredContent.__resources by the
tools: a chart, a table, or a mapAndImage object, each carried as a plain
structured object.  The blob constructor is modelled from the spec: the
repository documentation (README, Multi-modal responses) requires the
resource JSON to be base64-encoded into the blob field of an MCP resource;
that carrying form does not occur in the code under src. -/
inductive AuxResource where
  | chart (title : String) (config : ChartConfig)
  | table (title : String) (columns : List TableColumn) (data : List Organization)
  | mapAndImage (title : String) (entityType : String) (bounds : List (List Rat))
      (zoom : Nat) (data : List Organization)
  | blob (base64 : String)
deriving DecidableEq, Repr

/-- Whether a resource is carried in the binary-encoded blob form the
documentation mandates. -/
def AuxResource.isBlobCarried : AuxResource → Bool
  | .blob _ => true
  | _ => false

/-- A CallToolResult as returned by the tool handlers: content blocks, the
optional structuredContent.__resources list, and the isError flag (absent in
the source is modelled as false). -/
structure CallToolResult where
  content : List ContentBlock
  resources : Option (List AuxResource)
  isError : Bool
deriving DecidableEq, Repr

/-- A notifications/message notification as sent through sendNotification by
the co2measures handler: the level, the params type field, and the data
text. -/
structure Notification where
  method : String
  level : String
  dataType : String
  data : String
deriving DecidableEq, Repr

/-- JS Math.round: round half up (toward positive infinity). -/
def jsRound (q : Rat) : Int := (q + 1 / 2).floor

/-- Rendering of a JS number into a template literal, modelled for the
integral case (the only shape the claims touch); non-integral rationals are
rendered by their Rat representation. -/
def fmtNum (q : Rat) : String := if q.den = 1 then toString q.num else toString q

/-- The text block of the co2measures result (server.ts lines 253 to 259),
with the literal line breaks of the template string. -/
def co2text (area : Rat) : String :=
  "In einem Gebäude mit einer Fläche von " ++ fmtNum area
    ++ " Quadratmetern können die folgenden Maßnahmen zur CO2-Reduktion umgesetzt werden:\n\n\n"
    ++ "* " ++ toString (jsRound (area * 0.05)) ++ " Bäume zu pflanzen\n\n"
    ++ "* " ++ toString (jsRound (area * 0.02)) ++ " Photovoltaikanlagen zu installieren\n\n"
    ++ "* " ++ toString (jsRound (area * 0.005)) ++ " Elektroautos zu kaufen\n"

/-- Embedding of the co2measures tool handler (server.ts lines 60 to 265):
it awaits sendNotification twice - first a debug text message, then an info
chart message - and then resolves with one text content block and one chart
resource in structuredContent.__resources.  The numeric chart payload
(series values and timestamps from calculateEmissions, which depends on the
clock and floating point) is passed in as abstract data; the suggestedMeasures
annotations are part of that abstracted payload. -/
def co2measures (area : Rat) (emissionData goalData timestamps : List Rat) :
    List Notification × CallToolResult :=
  ([⟨"notifications/message", "debug", "text",
      "Starting to simulate CO2 reduction measures."⟩,
    ⟨"notifications/message", "info", "chart",
      "Completed simulation of CO2 reduction measures."⟩],
   { content := [⟨"text", co2text area⟩]
     resources := some [.chart "CO2-Ziele und Maßnahmen"
       ⟨"line", 200,
        [⟨"CO2-Emissionen", emissionData⟩, ⟨"CO2-Ziel", goalData⟩],
        timestamps⟩]
     isError := false })

/-- The organizations list of the realEstateOrganizations tool (server.ts
lines 272 to 328). -/
def organizations : List Organization :=
  [⟨"Fraunhofer-Allianz BAU",
    "Fraunhoferstr. 10, 83626 Valley",
    "Rechtlich nicht selbstständige Einrichtung der Fraunhofer-Gesellschaft zur Förderung der angewandten Forschung e.V.",
    "info@zv.fraunhofer.de", "www.fraunhofer.de", "-", "-", "-", "-",
    47.87571351167659, 11.728079655193191, "company", "LegalPerson"⟩,
   ⟨"gefma Deutscher Verband für Facility Management e.V.",
    "Basteistraße 88 53173 Bonn",
    "Deutscher Verband für Facility Management",
    "info@gefma.de", "www.gefma.de", "Eingetragener Verein",
    "Vereinsregister 7391", "Bonn", "DE192935291",
    50.737430, 7.099620, "company", "LegalPerson"⟩,
   ⟨"Smart Building Innovation gGmbH",
    "Lietzenburger Str. 44/46, 10789 Berlin",
    "SBIF ist eine Organisation, die sich für die Verbesserung der Immobilien- und Facility Management-Branche einsetzt.",
    "communications@sbif.foundation", "www.sbif.foundation",
    "Gemeinnützige Gesellschaft mit beschränkter Haftung",
    "HRB 241668 B", "Charlottenburg", "27/640/03085",
    52.500724996124994, 13.332664126582191, "company", "LegalPerson"⟩,
   ⟨"ZIA Zentraler Immobilien Ausschuss e.V.",
    "Leipziger Platz 9, 10117 Berlin",
    "Der ZIA Zentraler Immobilien Ausschuss ist die ordnungs- und wirtschaftspolitische Interessenvertretung der gesamten Immobilienwirtschaft.",
    "info@zia-deutschland.de", "www.zia-deutschland.de",
    "Eingetragener Verein", "VR 25863 B", "Amtsgericht Berlin-Charlottenburg",
    "-", 52.50908192144996, 13.37930986891092, "company", "LegalPerson"⟩]

/-- The column specifications of the realEstateOrganizations table resource
(server.ts lines 333 to 370). -/
def reoColumns : List TableColumn :=
  [⟨"Name", "name", "250px"⟩,
   ⟨"Adresse", "address", "200px"⟩,
   ⟨"Beschreibung", "description", "300px"⟩,
   ⟨"E-Mail", "email", "200px"⟩,
   ⟨"Website", "website", "200px"⟩,
   ⟨"Rechtsform", "legalForm", "200px"⟩,
   ⟨"Handelsregister", "registrationNumber", "200px"⟩,
   ⟨"Registergericht", "court", "200px"⟩,
   ⟨"USt-IdNr.", "taxNumber", "200px"⟩]

/-- The markup text of the realEstateOrganizations result (server.ts lines
385 to 391): the intro line, one bullet per organization name, two trailing
line breaks. -/
def reoMarkup : String :=
  "Folgende Organisationen sind für die Immobilien- und Facility Management-Branche in Deutschland wichtig:\n\n"
    ++ String.join (organizations.map (fun o => "* " ++ o.name ++ "\n"))
    ++ "\n\n"

/-- Embedding of the realEstateOrganizations tool handler (server.ts lines
267 to 403): no notifications; the result holds one text block and two
resources - a table object and a mapAndImage object - in
structuredContent.__resources. -/
def realEstateOrganizations : List Notification × CallToolResult :=
  ([],
   { content := [⟨"text", reoMarkup⟩]
     resources := some
       [.table "Wichtige Immobilien- und Facility Management-Organisationen in Deutschland"
          reoColumns organizations,
        .mapAndImage "Wichtige Immobilien- und Facility Management-Organisationen in Deutschland"
          "PoI" [[5.866667, 47.270111], [15.041667, 55.055556]] 6 organizations]
     isError := false })

/-! ### The process_file tool (server.ts lines 23 to 57 and 405 to 477) -/

/-- The result of fetchFromUri: the fetched bytes (modelled as the decoded
string) and the mime type when the source supplied one. -/
structure FetchResult where
  buffer : String
  mimeType : Option String
deriving DecidableEq, Repr

/-- The external collaborators of process_file, all total functions into
Except so a failure is an explicit error value: node readFile composed with
fileURLToPath, the http fetch (its error covers network failures and non-ok
statuses, message HTTP status: statusText), node base64 decoding (total in
node), the csv-parse library (rows already normalized to arrays, as the
handler does with Object.values), and the xlsx first-sheet row extraction. -/
structure Env where
  readFileUri : String → Except String String
  httpFetch : String → Except String (String × Option String)
  b64decode : String → String
  parseCsv : String → Except String (List (List String))
  xlsxSheetRows : String → Except String (List (List String))

/-- JS String.prototype.startsWith, implemented structurally so concrete
instances evaluate in the kernel. -/
def jsStartsWith (s pre : String) : Bool := pre.data.isPrefixOf s.data

/-- JS String.prototype.split with a one-character separator (every split in
server.ts uses a one-character separator), implemented structurally. -/
def splitOnCharList (c : Char) : List Char → List (List Char)
  | [] => [[]]
  | x :: xs =>
      if x = c then [] :: splitOnCharList c xs
      else
        match splitOnCharList c xs with
        | [] => [[x]]
        | h :: t => (x :: h) :: t

def jsSplitOnChar (c : Char) (s : String) : List String :=
  (splitOnCharList c s.data).map String.mk

/-- ASCII lowercasing of one character (the mime strings of server.ts are
ASCII). -/
def jsCharToLower (ch : Char) : Char :=
  if 'A' ≤ ch ∧ ch ≤ 'Z' then Char.ofNat (ch.toNat + 32) else ch

/-- JS String.prototype.toLowerCase on ASCII input. -/
def jsToLower (s : String) : String := ⟨s.data.map jsCharToLower⟩

def jsIsSpace (ch : Char) : Bool := ch = ' ' || ch = '\t' || ch = '\n' || ch = '\r'

/-- JS String.prototype.trim (common whitespace). -/
def jsTrim (s : String) : String :=
  ⟨((s.data.dropWhile jsIsSpace).reverse.dropWhile jsIsSpace).reverse⟩

/-- The regex match of server.ts line 30 on a data URI: group 1 is the run
without semicolons after data:, then the literal base64 marker, then a
nonempty remainder. -/
def dataUriMatch (uri : String) : Option (String × String) :=
  let s := uri.drop 5
  let beforeSemi := (jsSplitOnChar ';' s).headD ""
  if beforeSemi.length = s.length then none
  else
    let rest := s.drop (beforeSemi.length + 1)
    if jsStartsWith rest "base64," then
      let d := rest.drop 7
      if d = "" then none else some (beforeSemi, d)
    else none

/-- Embedding of fetchFromUri (server.ts lines 23 to 46): dispatch on the
URI scheme; file and http go to the environment oracles, a data URI is
decoded in place (an empty mime group becomes undefined), and any other
scheme is an error naming the scheme. -/
def fetchFromUri (env : Env) (uri : String) : Except String FetchResult :=
  if jsStartsWith uri "file://" then
    match env.readFileUri uri with
    | .error e => .error e
    | .ok b => .ok ⟨b, none⟩
  else if jsStartsWith uri "data:" then
    match dataUriMatch uri with
    | none => .error "Invalid data URI format"
    | some (m, d) => .ok ⟨env.b64decode d, if m = "" then none else some m⟩
  else if jsStartsWith uri "http://" || jsStartsWith uri "https://" then
    match env.httpFetch uri with
    | .error e => .error e
    | .ok (b, ct) => .ok ⟨b, ct.map (fun s0 => jsTrim ((jsSplitOnChar ';' s0).headD ""))⟩
  else
    .error ("Unsupported URI scheme: " ++ (jsSplitOnChar ':' uri).headD "")

/-- escapeCell (server.ts line 49): escape pipes, replace line breaks by
spaces. -/
def escapeCell (s : String) : String :=
  ⟨(s.data.flatMap (fun ch => if ch = '|' then ['\\', '|'] else [ch])).map
    (fun ch => if ch = '\n' then ' ' else ch)⟩

/-- toMarkdownTable (server.ts lines 50 to 57): header row, alignment row,
body rows; the empty row list gives the empty string. -/
def toMarkdownTable (rows : List (List String)) : String :=
  match rows with
  | [] => ""
  | headers :: body =>
      let headerRow := "| " ++ String.intercalate " | " (headers.map escapeCell) ++ " |"
      let alignRow := "|" ++ String.intercalate "|" (headers.map (fun _ => "---")) ++ "|"
      let bodyRows := body.map
        (fun row => "| " ++ String.intercalate " | " (row.map escapeCell) ++ " |")
      String.intercalate "\n" (headerRow :: alignRow :: bodyRows)

/-- The resource argument of process_file (server.ts lines 409 to 414). -/
structure FileResource where
  uri : String
  mimeType : Option String
  name : Option String
  size : Option Rat
deriving Repr

def csvMimeTypes : List String := ["text/csv", "application/csv", "text/x-csv"]

def excelMimeTypes : List String :=
  ["application/vnd.openxmlformats-officedocument.spreadsheetml.sheet",
   "application/vnd.ms-excel",
   "application/vnd.oasis.opendocument.spreadsheet"]

def textMimeTypes : List String := ["text/plain", "text/html", "text/xml", "application/json"]

def isCsvMime (m : String) : Bool := csvMimeTypes.contains m || jsStartsWith m "text/csv"

def isExcelMime (m : String) : Bool := excelMimeTypes.contains m

def isTextMime (m : String) : Bool := textMimeTypes.contains m || jsStartsWith m "text/"

/-- JS string-or for the default chain of server.ts line 431: the empty
string is falsy. -/
def jsOrString (a b : String) : String := if a = "" then b else a

/-- The extension of a URI (server.ts line 433): cut at the first hash or
question mark, take the part after the last dot, lowercase. -/
def extOf (uri : String) : String :=
  let base := (jsSplitOnChar '?' ((jsSplitOnChar '#' uri).headD "")).headD ""
  jsToLower ((jsSplitOnChar '.' base).getLast?.getD "")

/-- The extension-to-mime fallback map (server.ts lines 434 to 437); an
unknown extension gives the empty string. -/
def extMap (e : String) : String :=
  if e = "csv" then "text/csv"
  else if e = "xlsx" then "application/vnd.openxmlformats-officedocument.spreadsheetml.sheet"
  else if e = "xls" then "application/vnd.ms-excel"
  else if e = "txt" then "text/plain"
  else if e = "json" then "application/json"
  else ""

/-- Mime resolution of server.ts lines 431 to 439: explicit resource mime,
else the fetched one, lowercased and cut at the first semicolon, trimmed;
when still empty and the URI is nonempty, fall back to the extension map. -/
def resolveMime (resourceMime fetchedMime : Option String) (uri : String) : String :=
  let m0 := jsOrString (resourceMime.getD "") (fetchedMime.getD "")
  let m := jsTrim ((jsSplitOnChar ';' (jsToLower m0)).headD "")
  if m = "" && uri ≠ "" then extMap (extOf uri) else m

/-- The error result shape of process_file: one text block, isError true. -/
def errorResult (msg : String) : CallToolResult :=
  { content := [⟨"text", msg⟩], resources := none, isError := true }

/-- Embedding of the process_file tool handler (server.ts lines 405 to 477):
the whole body sits in a try/catch, so every thrown failure becomes an
isError result carrying the error message as its single text block; a csv or
excel mime yields the markdown table of the parsed rows, a text mime yields
the decoded buffer, anything else the unsupported-mime error result. -/
def process_file (env : Env) (resource : FileResource) : CallToolResult :=
  match fetchFromUri env resource.uri with
  | .error e => errorResult e
  | .ok fr =>
      let mime := resolveMime resource.mimeType fr.mimeType resource.uri
      if isCsvMime mime then
        match env.parseCsv fr.buffer with
        | .error e => errorResult e
        | .ok rows =>
            { content := [⟨"text", toMarkdownTable rows⟩], resources := none, isError := false }
      else if isExcelMime mime then
        match env.xlsxSheetRows fr.buffer with
        | .error e => errorResult e
        | .ok rows =>
            { content := [⟨"text", toMarkdownTable rows⟩], resources := none, isError := false }
      else if isTextMime mime then
        { content := [⟨"text", fr.buffer⟩], resources := none, isError := false }
      else
        { content := [⟨"text", "nicht unterstützter MIME-Typ"⟩], resources := none, isError := true }

/-! ### Helper lemmas -/

theorem mkSessionId_injective (m n : Nat) (h : mkSessionId m = mkSessionId n) : m = n := by
  have h2 := congrArg (fun s => s.data.length) h
  simp [mkSessionId] at h2
  omega

theorem mkSessionId_ne_empty (n : Nat) : mkSessionId n ≠ "" := by
  intro h
  have h2 := congrArg (fun s => s.data.length) h
  simp [mkSessionId] at h2

theorem mkSessionId_not_proto (k : Nat) : mkSessionId k ∉ protoKeys := by
  intro hk
  simp only [protoKeys, List.mem_cons, List.not_mem_nil, or_false] at hk
  rcases hk with h | h | h | h | h | h | h | h | h | h | h | h <;>
    exact absurd
      (show ('s' : Char) = _ from congrArg (fun s => s.data.headD ' ') h)
      (by decide)

theorem shutdownLoop_eq_filter (F : String → Bool) (l : List String) :
    shutdownLoop F l = l.filter F := by
  induction l with
  | nil => rfl
  | cons a rest ih => cases h : F a <;> simp [shutdownLoop, List.filter_cons, h, ih]

/-! ### Claim theorems: shutdown, sessions, errors, tools -/

/-- C8: on a termination signal every active session is attempted: any
session whose close succeeds is closed and removed from the registry, a
failing closure does not prevent the remaining sessions from being closed
(the conjuncts hold for every pattern of failing closures), with no failures
the registry ends empty, and the process exits with status 0. -/
theorem c8_shutdown_contract (st : ServerState) (closeFails : String → Bool) :
    (sigintShutdown st closeFails).2 = 0
    ∧ (∀ sid, sid ∈ st.sessions → closeFails sid = false →
        sid ∉ (sigintShutdown st closeFails).1.sessions)
    ∧ ((∀ sid, sid ∈ st.sessions → closeFails sid = false) →
        (sigintShutdown st closeFails).1.sessions = [])
    ∧ (∀ sid, sid ∈ (sigintShutdown st closeFails).1.sessions →
        sid ∈ st.sessions ∧ closeFails sid = true) := by
  refine ⟨rfl, ?_, ?_, ?_⟩
  · intro sid hmem hok hin
    rw [show (sigintShutdown st closeFails).1.sessions
          = shutdownLoop closeFails st.sessions from rfl,
        shutdownLoop_eq_filter] at hin
    have := List.of_mem_filter hin
    rw [hok] at this
    exact Bool.noConfusion this
  · intro hall
    rw [show (sigintShutdown st closeFails).1.sessions
          = shutdownLoop closeFails st.sessions from rfl,
        shutdownLoop_eq_filter]
    refine List.filter_eq_nil_iff.mpr ?_
    intro a ha
    rw [hall a ha]
    exact Bool.noConfusion
  · intro sid hin
    rw [show (sigintShutdown st closeFails).1.sessions
          = shutdownLoop closeFails st.sessions from rfl,
        shutdownLoop_eq_filter] at hin
    exact ⟨List.mem_of_mem_filter hin, List.of_mem_filter hin⟩

theorem c8_shutdown_contract_witness :
    (sigintShutdown ⟨["a", "b"], 2⟩ (fun s => s == "a")).2 = 0
    ∧ "b" ∉ (sigintShutdown ⟨["a", "b"], 2⟩ (fun s => s == "a")).1.sessions := by
  exact ⟨(c8_shutdown_contract ⟨["a", "b"], 2⟩ (fun s => s == "a")).1,
    (c8_shutdown_contract ⟨["a", "b"], 2⟩ (fun s => s == "a")).2.1 "b"
      (by decide) (by decide)⟩

/-- C5: initializing twice without a session id yields the two successive
fresh tokens, which are distinct; the generator never repeats a token, so
every generated session id is unique for the process lifetime. -/
theorem c5_session_ids_unique (st : ServerState) :
    (postRoute st none true none).1 = .streamed (mkSessionId st.nextFresh)
    ∧ (postRoute (postRoute st none true none).2 none true none).1
        = .streamed (mkSessionId (st.nextFresh + 1))
    ∧ mkSessionId st.nextFresh ≠ mkSessionId (st.nextFresh + 1)
    ∧ (∀ m n : Nat, m ≠ n → mkSessionId m ≠ mkSessionId n) := by
  refine ⟨by simp [postRoute, headerPresent], by simp [postRoute, headerPresent], ?_, ?_⟩
  · intro h
    have := mkSessionId_injective _ _ h
    omega
  · intro m n hmn h
    exact hmn (mkSessionId_injective m n h)

theorem c5_session_ids_unique_witness :
    (postRoute ⟨[], 0⟩ none true none).1 = .streamed (mkSessionId 0)
    ∧ mkSessionId 0 ≠ mkSessionId 1 :=
  ⟨(c5_session_ids_unique ⟨[], 0⟩).1,
   (c5_session_ids_unique ⟨[], 0⟩).2.2.2 0 1 (by omega)⟩

/-- C3 counterexample: a GET with the unknown session id S1 is rejected with
status 400, but its body is the plain text string written by res.send, not a
structured error body of the code-and-message form; and with the unknown
session id constructor - an Object.prototype property name - the 400 guard is
passed through the prototype chain and no 400 response is produced at all:
the GET ends in an uncaught TypeError and the POST in a generic 500. -/
theorem c3_counterexample_get_body_unstructured :
    (getRoute ⟨[], 0⟩ (some "S1") none).1
      = .response 400 (.plainText "Invalid or missing session ID")
    ∧ Body.isStructuredError (.plainText "Invalid or missing session ID") = false
    ∧ (getRoute ⟨[], 0⟩ (some "constructor") none).1
      = .uncaught "TypeError: transport.handleRequest is not a function"
    ∧ (postRoute ⟨[], 0⟩ (some "constructor") false none).1
      = .response 500 (.jsonError (-32603) "Internal server error")
    ∧ (deleteRoute ⟨[], 0⟩ (some "constructor") none).1
      = .response 500 (.plainText "Error processing session termination") := by
  exact ⟨by decide, rfl, by decide, by decide, by decide⟩

/-- C3 amended: a request whose session id is missing, or unknown and not
the name of an Object.prototype property (and, on POST, a non-initialization
body when no id is supplied), is rejected with status 400 and the server
state is not mutated; the POST rejection body is the structured
code-and-message error object, while the GET and DELETE rejection bodies are
plain text.  A present unknown id that names an Object.prototype property
passes the truthiness guard through the prototype chain instead: still
without mutating state, POST answers the generic 500 error object, DELETE
the 500 plain text body, and on GET the TypeError escapes uncaught. -/
theorem c3_amended_protocol_rejections (st : ServerState) (header : Option String)
    (isInit : Bool) (fault : Option Fault)
    (hbad : headerPresent header = false ∨ (header.getD "") ∉ st.sessions) :
    ((header.getD "") ∉ protoKeys →
        getRoute st header fault
          = (.response 400 (.plainText "Invalid or missing session ID"), st)
        ∧ deleteRoute st header fault
          = (.response 400 (.plainText "Invalid or missing session ID"), st)
        ∧ ((headerPresent header = true ∨ isInit = false) →
            postRoute st header isInit fault
              = (.response 400
                  (.jsonError (-32000) "Bad Request: No valid session ID provided"), st)))
    ∧ Body.isStructuredError (.plainText "Invalid or missing session ID") = false
    ∧ (headerPresent header = true → (header.getD "") ∈ protoKeys →
        getRoute st header fault
          = (.uncaught "TypeError: transport.handleRequest is not a function", st)
        ∧ deleteRoute st header fault
          = (.response 500 (.plainText "Error processing session termination"), st)
        ∧ postRoute st header isInit fault
          = (.response 500 (.jsonError (-32603) "Internal server error"), st)) := by
  refine ⟨?_, rfl, ?_⟩
  · intro hproto
    cases hp : headerPresent header with
    | false =>
        refine ⟨by simp [getRoute, hp], by simp [deleteRoute, hp], ?_⟩
        intro hpost
        have hinit : isInit = false := by
          rcases hpost with h | h
          · simp [hp] at h
          · exact h
        simp [postRoute, hp, hinit]
    | true =>
        have hnotmem : (header.getD "") ∉ st.sessions := by
          rcases hbad with h | h
          · simp [hp] at h
          · exact h
        refine ⟨?_, ?_, ?_⟩
        · simp [getRoute, lookupTruthy, hp, hnotmem, hproto]
        · simp [deleteRoute, lookupTruthy, hp, hnotmem, hproto]
        · intro _
          simp [postRoute, lookupTruthy, hp, hnotmem, hproto]
  · intro hp hproto
    have hnotmem : (header.getD "") ∉ st.sessions := by
      rcases hbad with h | h
      · simp [hp] at h
      · exact h
    refine ⟨?_, ?_, ?_⟩
    · simp [getRoute, lookupTruthy, hp, hnotmem, hproto]
    · simp [deleteRoute, lookupTruthy, hp, hnotmem, hproto]
    · simp [postRoute, lookupTruthy, hp, hnotmem, hproto]

theorem c3_amended_protocol_rejections_witness :
    ("S1" ∉ (⟨[], 0⟩ : ServerState).sessions ∧ "S1" ∉ protoKeys
      ∧ headerPresent (some "constructor") = true
      ∧ "constructor" ∉ (⟨[], 0⟩ : ServerState).sessions
      ∧ "constructor" ∈ protoKeys)
    ∧ getRoute ⟨[], 0⟩ (some "S1") none
        = (.response 400 (.plainText "Invalid or missing session ID"), ⟨[], 0⟩)
    ∧ getRoute ⟨[], 0⟩ (some "constructor") none
        = (.uncaught "TypeError: transport.handleRequest is not a function", ⟨[], 0⟩) :=
  ⟨⟨by decide, by decide, by decide, by decide, by decide⟩,
   ((c3_amended_protocol_rejections ⟨[], 0⟩ (some "S1") true none
      (Or.inr (by decide))).1 (by decide)).1,
   ((c3_amended_protocol_rejections ⟨[], 0⟩ (some "constructor") true none
      (Or.inr (by decide))).2.2 (by decide) (by decide)).1⟩

/-- C7 counterexample: a GET on a known session whose transport handling
raises an internal fault, with no output sent yet, produces no 500-class
response at all: the app.get handler has no catch, so the fault escapes it
uncaught. -/
theorem c7_counterexample_get_fault_uncaught :
    (getRoute ⟨[mkSessionId 0], 1⟩ (some (mkSessionId 0))
        (some ⟨"socket hang up", false⟩)).1
      = .uncaught "socket hang up"
    ∧ HandlerResult.sendsResponse (.uncaught "socket hang up") = false := by
  exact ⟨by decide, rfl⟩

/-- C7 amended: for POST and DELETE requests, an internal fault raised during
transport handling is caught: when no output has been sent yet the handler
responds with status 500 and a generic constant body (the same body for every
fault message, so the exception text is never included); when headers are
already committed no 500 response is attempted.  The GET handler has no such
catch. -/
theorem c7_amended_fault_handling (st : ServerState) (header : Option String)
    (isInit : Bool) (m : String) :
    (headerPresent header = true → (header.getD "") ∈ st.sessions →
      (postRoute st header isInit (some ⟨m, false⟩)).1
        = .response 500 (.jsonError (-32603) "Internal server error"))
    ∧ (headerPresent header = false → isInit = true →
      (postRoute st header isInit (some ⟨m, false⟩)).1
        = .response 500 (.jsonError (-32603) "Internal server error"))
    ∧ (headerPresent header = true → (header.getD "") ∈ st.sessions →
      (postRoute st header isInit (some ⟨m, true⟩)).1 = .noResponse)
    ∧ (headerPresent header = false → isInit = true →
      (postRoute st header isInit (some ⟨m, true⟩)).1 = .noResponse)
    ∧ (headerPresent header = true → (header.getD "") ∈ st.sessions →
      (deleteRoute st header (some ⟨m, false⟩)).1
        = .response 500 (.plainText "Error processing session termination"))
    ∧ (headerPresent header = true → (header.getD "") ∈ st.sessions →
      (deleteRoute st header (some ⟨m, true⟩)).1 = .noResponse) := by
  refine ⟨?_, ?_, ?_, ?_, ?_, ?_⟩
  · intro hp hm; simp [postRoute, lookupTruthy, hp, hm]
  · intro hp hi; simp [postRoute, hp, hi]
  · intro hp hm; simp [postRoute, lookupTruthy, hp, hm]
  · intro hp hi; simp [postRoute, hp, hi]
  · intro hp hm; simp [deleteRoute, lookupTruthy, hp, hm]
  · intro hp hm; simp [deleteRoute, lookupTruthy, hp, hm]

theorem c7_amended_fault_handling_witness :
    (headerPresent (some (mkSessionId 0)) = true
      ∧ (mkSessionId 0) ∈ (⟨[mkSessionId 0], 1⟩ : ServerState).sessions)
    ∧ (postRoute ⟨[mkSessionId 0], 1⟩ (some (mkSessionId 0)) false
        (some ⟨"boom", false⟩)).1
      = .response 500 (.jsonError (-32603) "Internal server error") :=
  ⟨⟨by decide, by decide⟩,
   (c7_amended_fault_handling ⟨[mkSessionId 0], 1⟩ (some (mkSessionId 0)) false
      "boom").1 (by decide) (by decide)⟩

/-- C6: the tool results do carry their typed auxiliary resources (a chart
for co2measures; a table and a mapAndImage for realEstateOrganizations) in
structuredContent, but as plain structured objects: none of them is carried
in the binary-encoded blob form the documentation mandates. -/
theorem c6_resources_not_blob_encoded :
    (realEstateOrganizations.2.resources.getD []).map AuxResource.isBlobCarried
      = [false, false]
    ∧ ((co2measures 100 [] [] []).2.resources.getD []).map AuxResource.isBlobCarried
      = [false] := by
  exact ⟨rfl, rfl⟩

/-- C10: for every area input, the co2measures handler emits exactly two
notifications before its terminal result, first a debug-level text message
and then an info-level chart message, and resolves with exactly one text
content block and exactly one chart resource in structuredContent. -/
theorem c10_co2measures_notifications_and_shape (area : Rat)
    (emissionData goalData timestamps : List Rat) :
    (co2measures area emissionData goalData timestamps).1
      = [⟨"notifications/message", "debug", "text",
           "Starting to simulate CO2 reduction measures."⟩,
         ⟨"notifications/message", "info", "chart",
           "Completed simulation of CO2 reduction measures."⟩]
    ∧ (co2measures area emissionData goalData timestamps).1.length = 2
    ∧ (co2measures area emissionData goalData timestamps).2.content
      = [⟨"text", co2text area⟩]
    ∧ (co2measures area emissionData goalData timestamps).2.resources
      = some [.chart "CO2-Ziele und Maßnahmen"
          ⟨"line", 200,
           [⟨"CO2-Emissionen", emissionData⟩, ⟨"CO2-Ziel", goalData⟩],
           timestamps⟩]
    ∧ ((co2measures area emissionData goalData timestamps).2.resources.getD []).length = 1
    ∧ (co2measures area emissionData goalData timestamps).2.isError = false := by
  exact ⟨rfl, rfl, rfl, rfl, rfl, rfl⟩

theorem postRoute_state_cases (st : ServerState) (header : Option String)
    (isInit : Bool) (fault : Option Fault) :
    (postRoute st header isInit fault).2 = st
    ∨ (postRoute st header isInit fault).2
        = ⟨st.sessions ++ [mkSessionId st.nextFresh], st.nextFresh + 1⟩ := by
  dsimp only [postRoute]
  rcases fault with _ | f <;> repeat' split
  all_goals first
    | exact Or.inl rfl
    | exact Or.inr rfl

theorem getRoute_state (st : ServerState) (header : Option String)
    (fault : Option Fault) : (getRoute st header fault).2 = st := by
  dsimp only [getRoute]
  rcases fault with _ | f <;> repeat' split
  all_goals rfl

theorem deleteRoute_state_cases (st : ServerState) (header : Option String)
    (fault : Option Fault) :
    (deleteRoute st header fault).2 = st
    ∨ (deleteRoute st header fault).2
        = ⟨st.sessions.erase (header.getD ""), st.nextFresh⟩ := by
  dsimp only [deleteRoute]
  rcases fault with _ | f <;> repeat' split
  all_goals first
    | exact Or.inl rfl
    | exact Or.inr rfl

/-- C2: once a session transitions to Closed its id is removed from the
transports map by the onclose cleanup, every subsequent POST, GET or DELETE
addressed to that id is rejected as an unknown session, and no later request
on any verb ever brings the id back: new sessions always register a token the
generator has not produced before. -/
theorem c2_closed_is_terminal (st : ServerState) (sid : String)
    (hnd : st.sessions.Nodup) (hmem : sid ∈ st.sessions)
    (hgen : ∃ k, k < st.nextFresh ∧ sid = mkSessionId k) :
    closedSession (oncloseCleanup st sid) sid
    ∧ (∀ st' : ServerState, closedSession st' sid →
        (∀ isInit fault,
          postRoute st' (some sid) isInit fault
            = (.response 400
                (.jsonError (-32000) "Bad Request: No valid session ID provided"), st'))
        ∧ (∀ fault, getRoute st' (some sid) fault
            = (.response 400 (.plainText "Invalid or missing session ID"), st'))
        ∧ (∀ fault, deleteRoute st' (some sid) fault
            = (.response 400 (.plainText "Invalid or missing session ID"), st')))
    ∧ (∀ st' : ServerState, closedSession st' sid →
        (∀ header isInit fault,
          closedSession (postRoute st' header isInit fault).2 sid)
        ∧ (∀ header fault, closedSession (getRoute st' header fault).2 sid)
        ∧ (∀ header fault, closedSession (deleteRoute st' header fault).2 sid)) := by
  have hsidne : sid ≠ "" := by
    obtain ⟨k, _, hk⟩ := hgen
    rw [hk]
    exact mkSessionId_ne_empty k
  refine ⟨?_, ?_, ?_⟩
  · refine ⟨?_, ?_⟩
    · rw [oncloseCleanup, if_pos hmem]
      intro hin
      exact ((List.Nodup.mem_erase_iff hnd).mp hin).1 rfl
    · rw [oncloseCleanup, if_pos hmem]
      exact hgen
  · intro st' hc
    obtain ⟨hout, k, hklt, hk⟩ := hc
    have hproto : sid ∉ protoKeys := by
      rw [hk]; exact mkSessionId_not_proto k
    refine ⟨?_, ?_, ?_⟩
    · intro isInit fault
      simp [postRoute, lookupTruthy, headerPresent, hsidne, hout, hproto]
    · intro fault
      simp [getRoute, lookupTruthy, headerPresent, hsidne, hout, hproto]
    · intro fault
      simp [deleteRoute, lookupTruthy, headerPresent, hsidne, hout, hproto]
  · intro st' hc
    obtain ⟨hout, k, hklt, hk⟩ := hc
    refine ⟨?_, ?_, ?_⟩
    · intro header isInit fault
      rcases postRoute_state_cases st' header isInit fault with h | h
      · rw [h]; exact ⟨hout, k, hklt, hk⟩
      · rw [h]
        refine ⟨?_, k, Nat.lt_succ_of_lt hklt, hk⟩
        intro hin
        rcases List.mem_append.mp hin with hin | hin
        · exact hout hin
        · have hfresh := List.mem_singleton.mp hin
          rw [hk] at hfresh
          have := mkSessionId_injective _ _ hfresh
          omega
    · intro header fault
      rw [getRoute_state st' header fault]
      exact ⟨hout, k, hklt, hk⟩
    · intro header fault
      rcases deleteRoute_state_cases st' header fault with h | h
      · rw [h]; exact ⟨hout, k, hklt, hk⟩
      · rw [h]
        refine ⟨?_, k, hklt, hk⟩
        intro hin
        exact hout (List.mem_of_mem_erase hin)

theorem c2_closed_is_terminal_witness :
    ((⟨[mkSessionId 0], 1⟩ : ServerState).sessions.Nodup
      ∧ mkSessionId 0 ∈ (⟨[mkSessionId 0], 1⟩ : ServerState).sessions)
    ∧ closedSession (oncloseCleanup ⟨[mkSessionId 0], 1⟩ (mkSessionId 0)) (mkSessionId 0) :=
  ⟨⟨List.nodup_singleton _, List.mem_singleton_self _⟩,
   (c2_closed_is_terminal ⟨[mkSessionId 0], 1⟩ (mkSessionId 0)
      (List.nodup_singleton _) (List.mem_singleton_self _)
      ⟨0, Nat.zero_lt_one, rfl⟩).1⟩

theorem appendAll_entries (ps : List String) (log : EventLog) :
    (log.appendAll ps).entries = log.entries ++ mkEntries log.entries.length ps := by
  induction ps generalizing log with
  | nil => simp [EventLog.appendAll, mkEntries]
  | cons p rest ih =>
      show ((log.append p).appendAll rest).entries = _
      rw [ih]
      simp [EventLog.append, mkEntries]

theorem wellFormed_append (log : EventLog) (p : String) (h : log.wellFormed) :
    (log.append p).wellFormed := by
  unfold EventLog.wellFormed at *
  simp only [EventLog.append, List.map_append, List.map_cons, List.map_nil,
    List.length_append, List.length_cons, List.length_nil, List.range_succ, h]

theorem wellFormed_appendAll (log : EventLog) (ps : List String) (h : log.wellFormed) :
    (log.appendAll ps).wellFormed := by
  induction ps generalizing log with
  | nil => exact h
  | cons p rest ih => exact ih (log.append p) (wellFormed_append log p h)

theorem wellFormed_pairwise (log : EventLog) (h : log.wellFormed) :
    log.entries.Pairwise (fun a b => a.sequenceId < b.sequenceId) := by
  have hm : (log.entries.map LogEntry.sequenceId).Pairwise (· < ·) := by
    rw [h]
    exact List.Pairwise.map _ (fun a b hab => Nat.add_lt_add_right hab 1)
      (List.pairwise_lt_range _)
  exact List.pairwise_map.mp hm

theorem replayAfter_sorted (log : EventLog) (h : log.wellFormed) (n : Nat) :
    (log.replayAfter n).Pairwise (fun a b => a.sequenceId < b.sequenceId) :=
  List.Pairwise.sublist (List.filter_sublist _) (wellFormed_pairwise log h)

theorem replayAfter_mem (log : EventLog) (n : Nat) (e : LogEntry) :
    e ∈ log.replayAfter n ↔ e ∈ log.entries ∧ n < e.sequenceId := by
  simp [EventLog.replayAfter]

theorem step_attach_log (s : StreamState) (c : ConnId) (m : Option Nat) :
    (s.step (.attach c m)).log = s.log := rfl

theorem step_attach_some_recv (s : StreamState) (c : ConnId) (n : Nat) :
    (s.step (.attach c (some n))).recv c = s.recv c ++ s.log.replayAfter n := by
  simp [StreamState.step, Function.update_same]

theorem step_attach_recv_other (s : StreamState) (c d : ConnId) (m : Option Nat)
    (h : d ≠ c) : (s.step (.attach c m)).recv d = s.recv d := by
  simp [StreamState.step, Function.update_noteq h]

theorem run_appends (ps : List String) (s : StreamState) (c : ConnId)
    (h : s.live = some c) :
    (s.run (ps.map StreamOp.append)).log = s.log.appendAll ps
    ∧ (s.run (ps.map StreamOp.append)).live = some c
    ∧ (s.run (ps.map StreamOp.append)).recv c
        = s.recv c ++ mkEntries s.log.entries.length ps
    ∧ (∀ d, d ≠ c → (s.run (ps.map StreamOp.append)).recv d = s.recv d) := by
  induction ps generalizing s with
  | nil => simp [StreamState.run, EventLog.appendAll, mkEntries, h]
  | cons p rest ih =>
      have hstep : s.step (.append p)
          = { log := s.log.append p, live := s.live,
              recv := Function.update s.recv c
                (s.recv c ++ [⟨s.log.entries.length + 1, p⟩]) } := by
        simp [StreamState.step, h]
      have hlive2 : (s.step (.append p)).live = some c := by rw [hstep]; exact h
      obtain ⟨ihlog, ihlive, ihrecv, ihother⟩ := ih (s.step (.append p)) hlive2
      have hrunEq : s.run ((p :: rest).map StreamOp.append)
          = (s.step (.append p)).run (rest.map StreamOp.append) := rfl
      refine ⟨?_, ?_, ?_, ?_⟩
      · rw [hrunEq, ihlog, hstep]
        rfl
      · rw [hrunEq, ihlive]
      · rw [hrunEq, ihrecv, hstep]
        simp [Function.update_same, EventLog.append, mkEntries]
      · intro d hd
        rw [hrunEq, ihother d hd, hstep]
        simp [Function.update_noteq hd]

/-- C1: a GET carrying last-event-id N on a session replays over the new
connection exactly the event-log entries with sequence id greater than N, in
ascending sequence-id order, before any newly appended entry is forwarded; a
GET without last-event-id replays nothing and forwards only the newly
appended entries. -/
theorem c1_get_replay_semantics (s : StreamState) (c : ConnId) (N : Nat)
    (ps : List String) (hwf : s.log.wellFormed) (hrecv : s.recv c = []) :
    ((s.step (.attach c (some N))).run (ps.map StreamOp.append)).recv c
        = s.log.replayAfter N ++ mkEntries s.log.entries.length ps
    ∧ (∀ e, e ∈ s.log.replayAfter N ↔ e ∈ s.log.entries ∧ N < e.sequenceId)
    ∧ (s.log.replayAfter N).Pairwise (fun a b => a.sequenceId < b.sequenceId)
    ∧ ((s.step (.attach c none)).run (ps.map StreamOp.append)).recv c
        = mkEntries s.log.entries.length ps := by
  refine ⟨?_, fun e => replayAfter_mem s.log N e, replayAfter_sorted s.log hwf N, ?_⟩
  · obtain ⟨_, _, hr, _⟩ := run_appends ps (s.step (.attach c (some N))) c
      (by simp [StreamState.step])
    rw [hr]
    simp [StreamState.step, Function.update_same, hrecv]
  · obtain ⟨_, _, hr, _⟩ := run_appends ps (s.step (.attach c none)) c
      (by simp [StreamState.step])
    rw [hr]
    simp [StreamState.step, Function.update_same, hrecv]

theorem c1_get_replay_semantics_witness :
    ((⟨⟨[⟨1, "a"⟩, ⟨2, "b"⟩]⟩, none, fun _ => []⟩ : StreamState).log.wellFormed
      ∧ (⟨⟨[⟨1, "a"⟩, ⟨2, "b"⟩]⟩, none, fun _ => []⟩ : StreamState).recv 0 = [])
    ∧ (((⟨⟨[⟨1, "a"⟩, ⟨2, "b"⟩]⟩, none, fun _ => []⟩ : StreamState).step
          (.attach 0 (some 1))).run (["c"].map StreamOp.append)).recv 0
        = (⟨⟨[⟨1, "a"⟩, ⟨2, "b"⟩]⟩, none, fun _ => []⟩ : StreamState).log.replayAfter 1
          ++ mkEntries 2 ["c"] :=
  ⟨⟨by decide, rfl⟩,
   (c1_get_replay_semantics ⟨⟨[⟨1, "a"⟩, ⟨2, "b"⟩]⟩, none, fun _ => []⟩ 0 1 ["c"]
      (by decide) rfl).1⟩

/-- C4: at most one live connection per transport: an attach never touches
the log, a new attach supersedes any previous live connection, an append is
forwarded to at most the live connection, and after a first GET, appended
entries, and a superseding second GET, a further GET replaying from any
last-seen id N still receives exactly the log entries with sequence id
greater than N, in ascending order - the superseded connection's log was
never closed. -/
theorem c4_attach_supersedes (s : StreamState) (c1 c2 c3 : ConnId)
    (n1 n2 : Option Nat) (N : Nat) (ps : List String)
    (hwf : s.log.wellFormed) (h3 : s.recv c3 = []) (h31 : c3 ≠ c1) (h32 : c3 ≠ c2) :
    (∀ s0 : StreamState, ∀ c m, (StreamState.step s0 (.attach c m)).log = s0.log)
    ∧ (∀ s0 : StreamState, ∀ c m, (StreamState.step s0 (.attach c m)).live = some c)
    ∧ (∀ s0 : StreamState, ∀ p d, s0.live ≠ some d →
        (StreamState.step s0 (.append p)).recv d = s0.recv d)
    ∧ (s.run (.attach c1 n1 :: ps.map StreamOp.append ++ [.attach c2 n2])).log
        = s.log.appendAll ps
    ∧ (s.run (.attach c1 n1 :: ps.map StreamOp.append ++ [.attach c2 n2])).live = some c2
    ∧ ((s.run (.attach c1 n1 :: ps.map StreamOp.append ++ [.attach c2 n2])).step
          (.attach c3 (some N))).recv c3
        = (s.log.appendAll ps).replayAfter N
    ∧ (∀ e, e ∈ (s.log.appendAll ps).replayAfter N
        ↔ e ∈ (s.log.appendAll ps).entries ∧ N < e.sequenceId)
    ∧ ((s.log.appendAll ps).replayAfter N).Pairwise
        (fun a b => a.sequenceId < b.sequenceId) := by
  have hrun : s.run (.attach c1 n1 :: ps.map StreamOp.append ++ [.attach c2 n2])
      = ((s.step (.attach c1 n1)).run (ps.map StreamOp.append)).step (.attach c2 n2) := by
    show List.foldl StreamState.step s
        (.attach c1 n1 :: (ps.map StreamOp.append ++ [.attach c2 n2])) = _
    rw [List.foldl_cons, List.foldl_append]
    rfl
  obtain ⟨hlog, hlive, _, hother⟩ := run_appends ps (s.step (.attach c1 n1)) c1
    (by simp [StreamState.step])
  have hlogmid : ((s.step (.attach c1 n1)).run (ps.map StreamOp.append)).log
      = s.log.appendAll ps := hlog
  have hrecv3mid : ((s.step (.attach c1 n1)).run (ps.map StreamOp.append)).recv c3
      = [] := by
    rw [hother c3 h31]
    simp [StreamState.step, Function.update_noteq h31, h3]
  refine ⟨?_, ?_, ?_, ?_, ?_, ?_, fun e => replayAfter_mem _ N e, ?_⟩
  · intro s0 c m; rfl
  · intro s0 c m; rfl
  · intro s0 p d hd
    cases hl : s0.live with
    | none => simp [StreamState.step, hl]
    | some c =>
        have hdc : d ≠ c := fun hdc => hd (by rw [hl, hdc])
        simp [StreamState.step, hl, Function.update_noteq hdc]
  · rw [hrun]
    exact hlogmid
  · rw [hrun]
    rfl
  · rw [hrun, step_attach_some_recv,
      step_attach_recv_other ((s.step (.attach c1 n1)).run (ps.map StreamOp.append)) c2 c3 n2 h32,
      hrecv3mid, step_attach_log, hlogmid]
    simp
  · exact replayAfter_sorted _ (wellFormed_appendAll s.log ps hwf) N

theorem c4_attach_supersedes_witness :
    ((⟨⟨[]⟩, none, fun _ => []⟩ : StreamState).log.wellFormed
      ∧ (2 : ConnId) ≠ 0 ∧ (2 : ConnId) ≠ 1)
    ∧ (((⟨⟨[]⟩, none, fun _ => []⟩ : StreamState).run
          (.attach 0 none :: ["a"].map StreamOp.append ++ [.attach 1 none])).step
            (.attach 2 (some 0))).recv 2
        = ((⟨⟨[]⟩, none, fun _ => []⟩ : StreamState).log.appendAll ["a"]).replayAfter 0 :=
  ⟨⟨by decide, by decide, by decide⟩,
   (c4_attach_supersedes ⟨⟨[]⟩, none, fun _ => []⟩ 0 1 2 none none 0 ["a"]
      (by decide) rfl (by decide) (by decide)).2.2.2.2.2.1⟩

/-- C9: for every resource input the process_file handler resolves to a
result and never escapes with an unhandled exception: every fetch failure
(including an unsupported URI scheme) and every parse failure yields the
error result flagged isError with one text block, an unsupported mime type
yields the fixed unsupported-mime error result, and otherwise the result is
the markdown table of the parsed rows (csv or excel input) or the decoded
text (text input); in every case the content is exactly one text block. -/
theorem c9_process_file_total (env : Env) (r : FileResource) :
    (∃ t, (process_file env r).content = [⟨"text", t⟩])
    ∧ (∀ e, fetchFromUri env r.uri = .error e →
        process_file env r = errorResult e)
    ∧ (∀ fr, fetchFromUri env r.uri = .ok fr →
        (isCsvMime (resolveMime r.mimeType fr.mimeType r.uri) = true →
          (∀ e, env.parseCsv fr.buffer = .error e →
            process_file env r = errorResult e)
          ∧ (∀ rows, env.parseCsv fr.buffer = .ok rows →
              process_file env r = ⟨[⟨"text", toMarkdownTable rows⟩], none, false⟩))
        ∧ (isCsvMime (resolveMime r.mimeType fr.mimeType r.uri) = false →
            isExcelMime (resolveMime r.mimeType fr.mimeType r.uri) = true →
          (∀ e, env.xlsxSheetRows fr.buffer = .error e →
            process_file env r = errorResult e)
          ∧ (∀ rows, env.xlsxSheetRows fr.buffer = .ok rows →
              process_file env r = ⟨[⟨"text", toMarkdownTable rows⟩], none, false⟩))
        ∧ (isCsvMime (resolveMime r.mimeType fr.mimeType r.uri) = false →
            isExcelMime (resolveMime r.mimeType fr.mimeType r.uri) = false →
            isTextMime (resolveMime r.mimeType fr.mimeType r.uri) = true →
            process_file env r = ⟨[⟨"text", fr.buffer⟩], none, false⟩)
        ∧ (isCsvMime (resolveMime r.mimeType fr.mimeType r.uri) = false →
            isExcelMime (resolveMime r.mimeType fr.mimeType r.uri) = false →
            isTextMime (resolveMime r.mimeType fr.mimeType r.uri) = false →
            process_file env r
              = ⟨[⟨"text", "nicht unterstützter MIME-Typ"⟩], none, true⟩))
    ∧ (jsStartsWith r.uri "file://" = false → jsStartsWith r.uri "data:" = false →
        jsStartsWith r.uri "http://" = false → jsStartsWith r.uri "https://" = false →
        process_file env r
          = errorResult ("Unsupported URI scheme: " ++ (jsSplitOnChar ':' r.uri).headD "")) := by
  refine ⟨?_, ?_, ?_, ?_⟩
  · rcases hfetch : fetchFromUri env r.uri with e | fr
    · exact ⟨e, by simp [process_file, hfetch, errorResult]⟩
    · by_cases h1 : isCsvMime (resolveMime r.mimeType fr.mimeType r.uri) = true
      · rcases hp : env.parseCsv fr.buffer with e | rows
        · exact ⟨e, by simp [process_file, hfetch, h1, hp, errorResult]⟩
        · exact ⟨toMarkdownTable rows, by simp [process_file, hfetch, h1, hp]⟩
      · by_cases h2 : isExcelMime (resolveMime r.mimeType fr.mimeType r.uri) = true
        · rcases hp : env.xlsxSheetRows fr.buffer with e | rows
          · exact ⟨e, by simp [process_file, hfetch, h1, h2, hp, errorResult]⟩
          · exact ⟨toMarkdownTable rows, by simp [process_file, hfetch, h1, h2, hp]⟩
        · by_cases h3 : isTextMime (resolveMime r.mimeType fr.mimeType r.uri) = true
          · exact ⟨fr.buffer, by simp [process_file, hfetch, h1, h2, h3]⟩
          · exact ⟨"nicht unterstützter MIME-Typ",
              by simp [process_file, hfetch, h1, h2, h3]⟩
  · intro e hfetch
    simp [process_file, hfetch]
  · intro fr hfetch
    refine ⟨?_, ?_, ?_, ?_⟩
    · intro h1
      refine ⟨?_, ?_⟩
      · intro e hp; simp [process_file, hfetch, h1, hp]
      · intro rows hp; simp [process_file, hfetch, h1, hp]
    · intro h1 h2
      refine ⟨?_, ?_⟩
      · intro e hp; simp [process_file, hfetch, h1, h2, hp]
      · intro rows hp; simp [process_file, hfetch, h1, h2, hp]
    · intro h1 h2 h3
      simp [process_file, hfetch, h1, h2, h3]
    · intro h1 h2 h3
      simp [process_file, hfetch, h1, h2, h3]
  · intro hA hB hC hD
    simp [process_file, fetchFromUri, hA, hB, hC, hD]

theorem c9_process_file_total_witness :
    fetchFromUri
        ⟨fun _ => .error "ENOENT", fun _ => .error "HTTP 404: Not Found",
         fun _ => "Hello", fun s => .ok [[s]], fun _ => .ok []⟩
        "data:text/plain;base64,SGVsbG8="
      = .ok ⟨"Hello", some "text/plain"⟩
    ∧ process_file
        ⟨fun _ => .error "ENOENT", fun _ => .error "HTTP 404: Not Found",
         fun _ => "Hello", fun s => .ok [[s]], fun _ => .ok []⟩
        ⟨"data:text/plain;base64,SGVsbG8=", none, none, none⟩
      = ⟨[⟨"text", "Hello"⟩], none, false⟩ :=
  ⟨rfl,
   ((c9_process_file_total
      ⟨fun _ => .error "ENOENT", fun _ => .error "HTTP 404: Not Found",
       fun _ => "Hello", fun s => .ok [[s]], fun _ => .ok []⟩
      ⟨"data:text/plain;base64,SGVsbG8=", none, none, none⟩).2.2.1
      ⟨"Hello", some "text/plain"⟩ rfl).2.2.1 (by decide) (by decide) (by decide)⟩
